import Mathlib

/-!
Verification of the device-data normalization layer of the
`govee-temperature` repository.

The source is Python; we use a shallow embedding.  Decoded JSON values
(what `response.json()` / `json.loads` return) are modelled by `PyVal`,
with `pnone` standing for the Python value `None` (which is what both a
JSON `null` and a missing `dict.get` key produce).  Python `float`s are
modelled as rationals: every claim below concerns the division-by-100
rule and truncation, not IEEE bit patterns.  Exceptions are modelled by
`Except PyErr`; the distinct Python exception classes that the code's
`except` clauses distinguish are the `PyErr` constructors.  `json.loads`
is an external library function, so functions that call it take an
explicit decoder argument `jl : String → Option PyVal` (`none` models a
`json.JSONDecodeError`).
-/

/-- A decoded Python/JSON value.  `pnone` is Python `None`. -/
inductive PyVal where
  | pnone : PyVal
  | pbool (b : Bool) : PyVal
  | pint (n : ℤ) : PyVal
  | pfloat (q : ℚ) : PyVal
  | pstr (s : String) : PyVal
  | plist (l : List PyVal) : PyVal
  | pdict (l : List (String × PyVal)) : PyVal

/-- Python exception classes that the repository's `except` clauses
tell apart. -/
inductive PyErr where
  | keyError : PyErr
  | valueError : PyErr
  | typeError : PyErr
  | attributeError : PyErr
deriving DecidableEq

/-- `d.get(k)` on a Python dict: `None` when the key is missing. -/
def pyGet (d : List (String × PyVal)) (k : String) : PyVal :=
  (List.lookup k d).getD .pnone

/-- `d.get(k, default)` on a Python dict. -/
def pyGetD (d : List (String × PyVal)) (k : String) (dflt : PyVal) : PyVal :=
  (List.lookup k d).getD dflt

/-- `d[k]` on a Python dict: raises `KeyError` when the key is missing. -/
def pyGetItem (d : List (String × PyVal)) (k : String) : Except PyErr PyVal :=
  match List.lookup k d with
  | some v => .ok v
  | none => .error .keyError

/-- Python truthiness (`bool(v)`), used by `if not value:` checks. -/
def pyFalsy : PyVal → Bool
  | .pnone => true
  | .pbool b => !b
  | .pint n => n = 0
  | .pfloat q => q = 0
  | .pstr s => s = ""
  | .plist l => l.isEmpty
  | .pdict l => l.isEmpty

/-- `v is None`. -/
def pyIsNone : PyVal → Bool
  | .pnone => true
  | _ => false

/-- Truncation toward zero, the behaviour of Python `int(float)`. -/
def pyTrunc (q : ℚ) : ℤ :=
  if 0 ≤ q then ⌊q⌋ else ⌈q⌉

/-- Digits of a decimal literal to a natural number (`none` when the
list is empty or holds a non-digit). -/
def digitsToNat (l : List Char) : Option ℕ :=
  if l.isEmpty then none
  else if l.all Char.isDigit then
    some (l.foldl (fun a c => a * 10 + (c.toNat - 48)) 0)
  else none

/-- ASCII whitespace, for the stripping `int(str)` performs. -/
def isPySpace (c : Char) : Bool :=
  c = ' ' || c = '\t' || c = '\n' || c = '\r'

/-- Strip whitespace from both ends of a character list. -/
def stripChars (l : List Char) : List Char :=
  ((l.dropWhile isPySpace).reverse.dropWhile isPySpace).reverse

/-- Python `int(str)`: surrounding whitespace stripped, optional sign,
decimal digits.  (Digit-group underscores are not modelled; no claim
depends on them.)  `none` models the `ValueError` raised otherwise. -/
def pyIntOfStr (s : String) : Option ℤ :=
  match stripChars s.data with
  | [] => none
  | '-' :: rest => (digitsToNat rest).map (fun n => -(n : ℤ))
  | '+' :: rest => (digitsToNat rest).map (fun n => (n : ℤ))
  | l => (digitsToNat l).map (fun n => (n : ℤ))

/-- Python `int(v)`: `none` models the `ValueError`/`TypeError` raised
on unconvertible values; `bool` is an `int` subclass; `float` truncates
toward zero. -/
def pyInt : PyVal → Option ℤ
  | .pnone => none
  | .pbool b => some (cond b 1 0)
  | .pint n => some n
  | .pfloat q => some (pyTrunc q)
  | .pstr s => pyIntOfStr s
  | .plist _ => none
  | .pdict _ => none

/-- Python `str(v)` as used by the f-strings in the source.  Only the
string case is exercised by any claim; the other renderings are
simple approximations of `repr`. -/
def pyStrOf : PyVal → String
  | .pnone => "None"
  | .pbool b => cond b "True" "False"
  | .pint n => toString n
  | .pfloat q => toString q
  | .pstr s => s
  | .plist _ => "[...]"
  | .pdict _ => "\x7b...\x7d"

/-- `models.py` `DeviceSettings`: the dataclass performs no type
validation, so every field simply holds the raw value `dict.get`
returned (Python `None` when absent). -/
structure DeviceSettings where
  device_type : PyVal := .pnone
  push_state : PyVal := .pnone
  tem_min : PyVal := .pnone
  tem_max : PyVal := .pnone
  tem_warning : PyVal := .pnone
  tem_cali : PyVal := .pnone
  hum_min : PyVal := .pnone
  hum_max : PyVal := .pnone
  hum_warning : PyVal := .pnone
  hum_cali : PyVal := .pnone
  battery : PyVal := .pnone
  wifi_level : PyVal := .pnone
  upload_rate : PyVal := .pnone
  power_save_mode_state : PyVal := .pnone
  fah_open : PyVal := .pnone
  net_waring : PyVal := .pnone
  device_name : PyVal := .pnone
  sku : PyVal := .pnone
  device : PyVal := .pnone
  version_hard : PyVal := .pnone
  version_soft : PyVal := .pnone
  gateway_id : PyVal := .pnone

/-- `DeviceSettings.from_dict` applied to an already-checked dict. -/
def DeviceSettings.of (d : List (String × PyVal)) : DeviceSettings where
  device_type := pyGet d "deviceType"
  push_state := pyGet d "pushState"
  tem_min := pyGet d "temMin"
  tem_max := pyGet d "temMax"
  tem_warning := pyGet d "temWarning"
  tem_cali := pyGet d "temCali"
  hum_min := pyGet d "humMin"
  hum_max := pyGet d "humMax"
  hum_warning := pyGet d "humWarning"
  hum_cali := pyGet d "humCali"
  battery := pyGet d "battery"
  wifi_level := pyGet d "wifiLevel"
  upload_rate := pyGet d "uploadRate"
  power_save_mode_state := pyGet d "powerSaveModeState"
  fah_open := pyGet d "fahOpen"
  net_waring := pyGet d "netWaring"
  device_name := pyGet d "deviceName"
  sku := pyGet d "sku"
  device := pyGet d "device"
  version_hard := pyGet d "versionHard"
  version_soft := pyGet d "versionSoft"
  gateway_id := pyGet d "gatewayId"

/-- `DeviceSettings.from_dict`: every access is `data.get(...)`, which
exists only on a dict — on any other value Python raises
`AttributeError`. -/
def DeviceSettings.from_dict (data : PyVal) : Except PyErr DeviceSettings :=
  match data with
  | .pdict d => .ok (DeviceSettings.of d)
  | _ => .error .attributeError

/-- `models.py` `LastDeviceData`.  `tem`/`hum`/`avgDayTem`/`avgDayHum`
pass through `_validate_sensor_value`, which genuinely returns
`int | None`; `online` and `lastTime` are stored raw. -/
structure LastDeviceData where
  online : PyVal := .pnone
  tem : Option ℤ := none
  hum : Option ℤ := none
  last_time : PyVal := .pnone
  avg_day_tem : Option ℤ := none
  avg_day_hum : Option ℤ := none

/-- `LastDeviceData._validate_sensor_value`: `None` stays `None`,
otherwise `int(v)`, with a raise turned into `None`. -/
def LastDeviceData.validate_sensor_value (v : PyVal) : Option ℤ :=
  match v with
  | .pnone => none
  | v => pyInt v

/-- `LastDeviceData.from_dict` applied to an already-checked dict. -/
def LastDeviceData.of (d : List (String × PyVal)) : LastDeviceData where
  online := pyGet d "online"
  tem := LastDeviceData.validate_sensor_value (pyGet d "tem")
  hum := LastDeviceData.validate_sensor_value (pyGet d "hum")
  last_time := pyGet d "lastTime"
  avg_day_tem := LastDeviceData.validate_sensor_value (pyGet d "avgDayTem")
  avg_day_hum := LastDeviceData.validate_sensor_value (pyGet d "avgDayHum")

/-- `LastDeviceData.from_dict`: `data.get` on a non-dict raises
`AttributeError`. -/
def LastDeviceData.from_dict (data : PyVal) : Except PyErr LastDeviceData :=
  match data with
  | .pdict d => .ok (LastDeviceData.of d)
  | _ => .error .attributeError

/-- `models.py` `DeviceExt`: the dataclass stores the raw values of the
five `dict.get` calls (typically JSON-encoded strings or `None`). -/
structure DeviceExt where
  device_settings : PyVal := .pnone
  last_device_data : PyVal := .pnone
  device_splice : PyVal := .pnone
  ext_resources : PyVal := .pnone
  shared_settings : PyVal := .pnone

/-- `DeviceExt.from_dict` applied to an already-checked dict. -/
def DeviceExt.of (d : List (String × PyVal)) : DeviceExt where
  device_settings := pyGet d "deviceSettings"
  last_device_data := pyGet d "lastDeviceData"
  device_splice := pyGet d "deviceSplice"
  ext_resources := pyGet d "extResources"
  shared_settings := pyGet d "sharedSettings"

/-- `DeviceExt.from_dict`. -/
def DeviceExt.from_dict (data : PyVal) : Except PyErr DeviceExt :=
  match data with
  | .pdict d => .ok (DeviceExt.of d)
  | _ => .error .attributeError

/-- `DeviceExt.get_parsed_device_settings`, with `json.loads` passed as
`jl`.  `if not self.device_settings:` is a truthiness check; the
`except (json.JSONDecodeError, ValueError)` catches only decode
failures — `json.loads` of a non-string raises `TypeError`, and
`DeviceSettings.from_dict` of a decoded non-dict raises
`AttributeError`, neither of which is caught. -/
def DeviceExt.get_parsed_device_settings (jl : String → Option PyVal)
    (ext : DeviceExt) : Except PyErr (Option DeviceSettings) :=
  if pyFalsy ext.device_settings then .ok none
  else
    match ext.device_settings with
    | .pstr s =>
      match jl s with
      | none => .ok none
      | some data =>
        match DeviceSettings.from_dict data with
        | .ok ds => .ok (some ds)
        | .error e => .error e
    | _ => .error .typeError

/-- `DeviceExt.get_parsed_last_device_data`, same structure as the
settings parser. -/
def DeviceExt.get_parsed_last_device_data (jl : String → Option PyVal)
    (ext : DeviceExt) : Except PyErr (Option LastDeviceData) :=
  if pyFalsy ext.last_device_data then .ok none
  else
    match ext.last_device_data with
    | .pstr s =>
      match jl s with
      | none => .ok none
      | some data =>
        match LastDeviceData.from_dict data with
        | .ok ld => .ok (some ld)
        | .error e => .error e
    | _ => .error .typeError

/-- `models.py` `DeviceData`: the flat record built in
`GoveeDevice.__post_init__`.  `temperature`/`humidity` and the two
daily averages are floats (here rationals); the remaining fields are
stored raw.  `raw_data` holds the two parsed sub-documents (the dict
built from `__dict__` values), or `None` for a failed sub-parse. -/
structure DeviceData where
  temperature : Option ℚ := none
  humidity : Option ℚ := none
  battery : PyVal := .pnone
  online : PyVal := .pnone
  wifi_level : PyVal := .pnone
  temperature_warning : PyVal := .pnone
  humidity_warning : PyVal := .pnone
  upload_rate : PyVal := .pnone
  power_save_mode : PyVal := .pnone
  last_seen : PyVal := .pnone
  avg_day_temperature : Option ℚ := none
  avg_day_humidity : Option ℚ := none
  raw_data : Option DeviceSettings × Option LastDeviceData := (none, none)

/-- `GoveeDevice._convert_temperature`: hundredths to degrees, `None`
passed through. -/
def GoveeDevice.convert_temperature (temp_hundredths : Option ℤ) : Option ℚ :=
  match temp_hundredths with
  | none => none
  | some n => some ((n : ℚ) / 100)

/-- `GoveeDevice._convert_humidity`: hundredths to percent, `None`
passed through. -/
def GoveeDevice.convert_humidity (hum_hundredths : Option ℤ) : Option ℚ :=
  match hum_hundredths with
  | none => none
  | some n => some ((n : ℚ) / 100)

/-- The `DeviceData(...)` construction inside
`GoveeDevice.__post_init__`, given the two sub-parse results. -/
def buildDeviceData (device_settings : Option DeviceSettings)
    (last_device_data : Option LastDeviceData) : DeviceData where
  temperature := GoveeDevice.convert_temperature
    (match last_device_data with | some l => l.tem | none => none)
  humidity := GoveeDevice.convert_humidity
    (match last_device_data with | some l => l.hum | none => none)
  battery := match device_settings with | some s => s.battery | none => .pnone
  online := match last_device_data with | some l => l.online | none => .pnone
  wifi_level := match device_settings with | some s => s.wifi_level | none => .pnone
  temperature_warning := match device_settings with | some s => s.tem_warning | none => .pnone
  humidity_warning := match device_settings with | some s => s.hum_warning | none => .pnone
  upload_rate := match device_settings with | some s => s.upload_rate | none => .pnone
  power_save_mode := match device_settings with | some s => s.power_save_mode_state | none => .pnone
  last_seen := match last_device_data with | some l => l.last_time | none => .pnone
  avg_day_temperature := GoveeDevice.convert_temperature
    (match last_device_data with | some l => l.avg_day_tem | none => none)
  avg_day_humidity := GoveeDevice.convert_humidity
    (match last_device_data with | some l => l.avg_day_hum | none => none)
  raw_data := (device_settings, last_device_data)

/-- The body of `GoveeDevice.__post_init__` that computes `self.data`:
parse the two sub-documents (in source order), then build the flat
record.  An uncaught exception from either parser propagates. -/
def postInitData (jl : String → Option PyVal) (ext : DeviceExt) :
    Except PyErr DeviceData :=
  match DeviceExt.get_parsed_device_settings jl ext with
  | .error e => .error e
  | .ok device_settings =>
    match DeviceExt.get_parsed_last_device_data jl ext with
    | .error e => .error e
    | .ok last_device_data => .ok (buildDeviceData device_settings last_device_data)

/-- `models.py` `GoveeDevice` after `__post_init__` ran: the required
constructor fields hold whatever value `data[...]` produced (the
dataclass does not type-check them), plus the computed fields. -/
structure GoveeDevice where
  device_id : PyVal
  group_id : PyVal
  sku : PyVal
  device : PyVal
  version_hard : PyVal
  version_soft : PyVal
  device_name : PyVal
  device_ext : DeviceExt
  name : PyVal
  mac : PyVal
  model : PyVal
  data : DeviceData

/-- `GoveeDevice.from_dict` followed by the dataclass `__init__` and
`__post_init__`.  The `data[...]` accesses happen in the source's
argument order, so the first missing key raises `KeyError`; indexing a
non-dict raises `TypeError`. -/
def GoveeDevice.from_dict (jl : String → Option PyVal) (data : PyVal) :
    Except PyErr GoveeDevice :=
  match data with
  | .pdict d =>
    match pyGetItem d "deviceId" with
    | .error e => .error e
    | .ok device_id =>
    match pyGetItem d "groupId" with
    | .error e => .error e
    | .ok group_id =>
    match pyGetItem d "sku" with
    | .error e => .error e
    | .ok sku =>
    match pyGetItem d "device" with
    | .error e => .error e
    | .ok device =>
    match pyGetItem d "versionHard" with
    | .error e => .error e
    | .ok version_hard =>
    match pyGetItem d "versionSoft" with
    | .error e => .error e
    | .ok version_soft =>
    match pyGetItem d "deviceName" with
    | .error e => .error e
    | .ok device_name =>
    match pyGetItem d "deviceExt" with
    | .error e => .error e
    | .ok ext_raw =>
    match DeviceExt.from_dict ext_raw with
    | .error e => .error e
    | .ok device_ext =>
    match postInitData jl device_ext with
    | .error e => .error e
    | .ok devData =>
      .ok { device_id, group_id, sku, device, version_hard, version_soft,
            device_name, device_ext,
            name := device_name, mac := device, model := sku, data := devData }
  | _ => .error .typeError

/-- `GoveeDevice.from_api_response`: `try: from_dict` with
`except (ValueError, KeyError)` returning `None`.  Any other exception
(`TypeError`, `AttributeError`) propagates. -/
def GoveeDevice.from_api_response (jl : String → Option PyVal)
    (device : PyVal) : Except PyErr (Option GoveeDevice) :=
  match GoveeDevice.from_dict jl device with
  | .ok d => .ok (some d)
  | .error .valueError => .ok none
  | .error .keyError => .ok none
  | .error e => .error e

/-- The device loop of `GoveeClient.get_devices`: parse each entry,
append when `from_api_response` returned a device. -/
def parseDeviceList (jl : String → Option PyVal) :
    List PyVal → Except PyErr (List GoveeDevice)
  | [] => .ok []
  | v :: rest =>
    match GoveeDevice.from_api_response jl v with
    | .error e => .error e
    | .ok dev? =>
      match parseDeviceList jl rest with
      | .error e => .error e
      | .ok tail =>
        match dev? with
        | some dev => .ok (dev :: tail)
        | none => .ok tail

/-- `data.get("data", {}).get("devices", [])` on the decoded response
body: `.get` on a non-dict raises `AttributeError`. -/
def extractDevices (body : PyVal) : Except PyErr PyVal :=
  match body with
  | .pdict d =>
    match pyGetD d "data" (.pdict []) with
    | .pdict dd => .ok (pyGetD dd "devices" (.plist []))
    | _ => .error .attributeError
  | _ => .error .attributeError

/-- The parsing part of `GoveeClient.get_devices` applied to a decoded
response body.  (Python would iterate a non-list `devices` value
element-wise; no claim exercises that, so it is folded into
`TypeError` here.) -/
def getDevicesBody (jl : String → Option PyVal) (body : PyVal) :
    Except PyErr (List GoveeDevice) :=
  match extractDevices body with
  | .error e => .error e
  | .ok (.plist l) => parseDeviceList jl l
  | .ok _ => .error .typeError

/-- The outcome of the single `httpx` round trip inside
`GoveeClient.get_devices`.  `response st body` is a received HTTP
response with status `st` whose `response.json()` yields `body`
(`none` when the body fails to JSON-decode); `timeout` is an
`httpx.TimeoutException` (a subclass of `httpx.RequestError`);
`requestError` is any other network-level `httpx.RequestError`. -/
inductive Transport where
  | response (status : ℕ) (body : Option PyVal) : Transport
  | timeout : Transport
  | requestError : Transport

/-- The error taxonomy of `govee_temperature/client.py` (constructor
per exception class; `GoveeAuthenticationError` and
`GoveeConnectionError` subclass `GoveeClientError` in the source, but
the caller distinguishes them by class). -/
inductive GoveeError where
  | authenticationError : GoveeError
  | connectionError : GoveeError
  | clientError : GoveeError
deriving DecidableEq

/-- `GoveeClient.get_devices` of `src/govee_temperature/client.py`.
Control flow of the source, traced clause by clause:
the `raise GoveeAuthenticationError` on a 401 happens inside the `try`
block; `GoveeAuthenticationError` is not an `httpx.HTTPStatusError`
and not an `httpx.RequestError`, so it is caught by the final
`except Exception` clause and re-raised as
`GoveeClientError("Unexpected error: ...")`.  `raise_for_status()`
raises `httpx.HTTPStatusError` for any non-2xx status, mapped to
`GoveeClientError` (its 401 arm is unreachable: a 401 never gets that
far); `httpx.RequestError` maps to `GoveeConnectionError`; a body that
fails to decode, and any parse-stage exception, land in the final
`except Exception` as `GoveeClientError`. -/
def GoveeClient.get_devices (jl : String → Option PyVal) (t : Transport) :
    Except GoveeError (List GoveeDevice) :=
  match t with
  | .timeout => .error .connectionError
  | .requestError => .error .connectionError
  | .response status body =>
    if status = 401 then .error .clientError
    else if status < 200 ∨ 300 ≤ status then .error .clientError
    else
      match body with
      | none => .error .clientError
      | some b =>
        match getDevicesBody jl b with
        | .ok devs => .ok devs
        | .error _ => .error .clientError

/-- `const.py` `DEVICE_MODELS`. -/
def DEVICE_MODELS : List (String × String) :=
  [("H5051", "WiFi Thermo-Hygrometer"),
   ("H5074", "Bluetooth Thermo-Hygrometer"),
   ("H5075", "Bluetooth Thermo-Hygrometer"),
   ("H5101", "WiFi Thermo-Hygrometer"),
   ("H5102", "WiFi Thermo-Hygrometer"),
   ("H5179", "WiFi Thermo-Hygrometer")]

/-- `model_sku in DEVICE_MODELS` followed by `DEVICE_MODELS[model_sku]`:
only a string key can be a member. -/
def deviceModelLookup : PyVal → Option String
  | .pstr s => List.lookup s DEVICE_MODELS
  | _ => none

/-- `GoveeSensor._get_device_model` (identical in
`binary_sensor.py`): `device_data.get("model", "Unknown")`, lookup in
`DEVICE_MODELS`, else append " Sensor" unless the value is the default
sentinel `"Unknown"`, else sensor-presence heuristics. -/
def getDeviceModel (device_data : List (String × PyVal)) : String :=
  let model_sku := pyGetD device_data "model" (.pstr "Unknown")
  match deviceModelLookup model_sku with
  | some friendly => friendly
  | none =>
    match model_sku with
    | .pstr "Unknown" =>
      let has_temp := !pyIsNone (pyGet device_data "temperature")
      let has_humidity := !pyIsNone (pyGet device_data "humidity")
      if has_temp && has_humidity then "Temperature/Humidity Sensor"
      else if has_temp then "Temperature Sensor"
      else if has_humidity then "Humidity Sensor"
      else "Sensor"
    | v => pyStrOf v ++ " Sensor"

/-- `GoveeBinarySensor.available`: false when the last update failed or
the device MAC is absent from the coordinator data; otherwise
`sensor_value is not None` (an explicit `False` stays available). -/
def GoveeBinarySensor.available (last_update_success : Bool)
    (coordData : List (String × List (String × PyVal)))
    (mac key : String) : Bool :=
  if !last_update_success then false
  else
    match List.lookup mac coordData with
    | none => false
    | some device_data => !pyIsNone (pyGet device_data key)

/-- `GoveeBinarySensor.is_on`: `None` when the MAC is absent, else the
raw stored value (`None` means unavailable, `False` off, `True` on). -/
def GoveeBinarySensor.is_on
    (coordData : List (String × List (String × PyVal)))
    (mac key : String) : PyVal :=
  match List.lookup mac coordData with
  | none => .pnone
  | some device_data => pyGet device_data key

/-- The state the host platform shows for a binary sensor. -/
inductive ExposedState where
  | on : ExposedState
  | off : ExposedState
  | unavailable : ExposedState
deriving DecidableEq

/-- Composition of the two entity properties as the host framework
renders them: an entity whose `available` is false shows as
unavailable, otherwise `is_on` truthiness selects on/off. -/
def exposedBinaryState (last_update_success : Bool)
    (coordData : List (String × List (String × PyVal)))
    (mac key : String) : ExposedState :=
  if GoveeBinarySensor.available last_update_success coordData mac key then
    if pyFalsy (GoveeBinarySensor.is_on coordData mac key) then .off else .on
  else .unavailable

/-- `self.__dict__` of a `DeviceSettings` serialized back to JSON (the
`raw_data["device_settings"]` entry): a dict keyed by the normalized
snake_case attribute names, in dataclass field order. -/
def DeviceSettings.dump (s : DeviceSettings) : PyVal :=
  .pdict [("device_type", s.device_type), ("push_state", s.push_state),
    ("tem_min", s.tem_min), ("tem_max", s.tem_max),
    ("tem_warning", s.tem_warning), ("tem_cali", s.tem_cali),
    ("hum_min", s.hum_min), ("hum_max", s.hum_max),
    ("hum_warning", s.hum_warning), ("hum_cali", s.hum_cali),
    ("battery", s.battery), ("wifi_level", s.wifi_level),
    ("upload_rate", s.upload_rate),
    ("power_save_mode_state", s.power_save_mode_state),
    ("fah_open", s.fah_open), ("net_waring", s.net_waring),
    ("device_name", s.device_name), ("sku", s.sku),
    ("device", s.device), ("version_hard", s.version_hard),
    ("version_soft", s.version_soft), ("gateway_id", s.gateway_id)]

/-- An `int | None` sensor field as the Python value it dumps to. -/
def optionIntToPy : Option ℤ → PyVal
  | none => .pnone
  | some n => .pint n

/-- `self.__dict__` of a `LastDeviceData` serialized back to JSON (the
`raw_data["last_device_data"]` entry). -/
def LastDeviceData.dump (l : LastDeviceData) : PyVal :=
  .pdict [("online", l.online), ("tem", optionIntToPy l.tem),
    ("hum", optionIntToPy l.hum), ("last_time", l.last_time),
    ("avg_day_tem", optionIntToPy l.avg_day_tem),
    ("avg_day_hum", optionIntToPy l.avg_day_hum)]

/-- Re-parsing a strip of `stripLD`: drop the fields whose normalized
name differs from the vendor key. -/
def stripLD (l : LastDeviceData) : LastDeviceData :=
  { online := l.online, tem := l.tem, hum := l.hum,
    last_time := .pnone, avg_day_tem := none, avg_day_hum := none }

/-- The settings fields whose normalized name equals the vendor key
(`battery`, `sku`, `device`); every aliased field re-parses to `None`. -/
def stripDS (s : DeviceSettings) : DeviceSettings :=
  { battery := s.battery, sku := s.sku, device := s.device }

/-- Decoder used by the C1 witness: one known telemetry string. -/
def c1w_jl : String → Option PyVal :=
  fun s => if s = "L" then some (.pdict [("tem", .pint 2160)]) else none

/-- Envelope used by the C1 witness. -/
def c1w_ext : DeviceExt := { last_device_data := .pstr "L" }

/-- Telemetry record used by the C1 witness. -/
def c1w_l : LastDeviceData := LastDeviceData.of [("tem", .pint 2160)]

/-- Decoder used by the C4 witness: settings string malformed
(decode fails), telemetry string decodes. -/
def c4w_jl : String → Option PyVal :=
  fun s =>
    if s = "T" then some (.pdict [("tem", .pint 2100), ("online", .pbool true)])
    else none

/-- Envelope used by the C4 witness: `deviceSettings` present but
undecodable, `lastDeviceData` decodable. -/
def c4w_ext : DeviceExt :=
  { device_settings := .pstr "not json", last_device_data := .pstr "T" }

/-- Coordinator snapshot used by the C8 witness: one device whose
`online` is explicitly `False`. -/
def c8w_coord : List (String × List (String × PyVal)) :=
  [("AA:BB", [("online", .pbool false)])]

/-- Record used by the C9 witness: `deviceName` and `device` present,
`sku` missing. -/
def c9w_rec : List (String × PyVal) :=
  [("deviceId", .pint 7), ("groupId", .pint 0), ("device", .pstr "AA:BB"),
   ("versionHard", .pstr "1.0"), ("versionSoft", .pstr "1.0"),
   ("deviceName", .pstr "Office"), ("deviceExt", .pdict [])]

/-- A fully well-formed raw record (used to show a sibling parses). -/
def c2_good : List (String × PyVal) :=
  [("deviceId", .pint 1), ("groupId", .pint 0), ("sku", .pstr "H5075"),
   ("device", .pstr "AA"), ("versionHard", .pstr "1"),
   ("versionSoft", .pstr "1"), ("deviceName", .pstr "Room"),
   ("deviceExt", .pdict [])]

/-- A device list holding a non-dict entry before a good record. -/
def c2_body : PyVal :=
  .pdict [("data", .pdict [("devices", .plist [.pstr "x", .pdict c2_good])])]

/-- The same list with only the good record. -/
def c2_body_good_only : PyVal :=
  .pdict [("data", .pdict [("devices", .plist [.pdict c2_good])])]

/-- Record used by the C2 witness: `device` present, `deviceName`
missing. -/
def c2w_rec : List (String × PyVal) :=
  [("deviceId", .pint 1), ("device", .pstr "AA")]

/-- A raw record with every required key except `deviceExt`. -/
def c3_rec : List (String × PyVal) :=
  [("deviceId", .pint 7), ("groupId", .pint 0), ("sku", .pstr "H5075"),
   ("device", .pstr "AA:BB"), ("versionHard", .pstr "1.0"),
   ("versionSoft", .pstr "1.0"), ("deviceName", .pstr "Office")]

/-- Record used by the C3 witness: everything present, empty
`deviceExt`. -/
def c3w_rec : List (String × PyVal) :=
  [("deviceId", .pint 7), ("groupId", .pint 0), ("sku", .pstr "H5075"),
   ("device", .pstr "AA:BB"), ("versionHard", .pstr "1.0"),
   ("versionSoft", .pstr "1.0"), ("deviceName", .pstr "Office"),
   ("deviceExt", .pdict [])]

/-- Coordinator entry used by the C5 counterexample: SKU literally
`"Unknown"` with both readings present. -/
def c5_dd : List (String × PyVal) :=
  [("model", .pstr "Unknown"), ("temperature", .pfloat (216 / 10)),
   ("humidity", .pfloat 50)]

/-- Decoder used by the C7 counterexample. -/
def c7_jl : String → Option PyVal :=
  fun s => if s = "L" then some (.pdict [("lastTime", .pint 100)]) else none

/-- Raw record used by the C7 counterexample: telemetry carries a
`lastTime`. -/
def c7_rec : List (String × PyVal) :=
  [("deviceId", .pint 1), ("groupId", .pint 0), ("sku", .pstr "H5075"),
   ("device", .pstr "AA"), ("versionHard", .pstr "1"),
   ("versionSoft", .pstr "1"), ("deviceName", .pstr "Room"),
   ("deviceExt", .pdict [("lastDeviceData", .pstr "L")])]

/-- The telemetry sub-document that C7's device stores in `raw_data`. -/
def c7_ldd : LastDeviceData := LastDeviceData.of [("lastTime", .pint 100)]

lemma pyGetItem_eq_error {d : List (String × PyVal)} {k : String}
    (h : List.lookup k d = none) : pyGetItem d k = .error .keyError := by
  rw [pyGetItem, h]

lemma pyGetItem_eq_ok {d : List (String × PyVal)} {k : String} {v : PyVal}
    (h : List.lookup k d = some v) : pyGetItem d k = .ok v := by
  rw [pyGetItem, h]

lemma pyGetItem_error_elim {d : List (String × PyVal)} {k : String} {e : PyErr}
    (h : pyGetItem d k = .error e) : e = .keyError := by
  rw [pyGetItem] at h
  cases hl : List.lookup k d with
  | none =>
    rw [hl] at h
    cases h
    rfl
  | some v =>
    rw [hl] at h
    cases h

lemma pyGetItem_split (d : List (String × PyVal)) (k : String) :
    pyGetItem d k = .error .keyError ∨ ∃ v, pyGetItem d k = .ok v := by
  rw [pyGetItem]
  cases List.lookup k d with
  | none => exact Or.inl rfl
  | some v => exact Or.inr ⟨v, rfl⟩

lemma validate_optionIntToPy (o : Option ℤ) :
    LastDeviceData.validate_sensor_value (optionIntToPy o) = o := by
  cases o <;> rfl

/-- A record whose raw dict lacks one of the eight required keys makes
`GoveeDevice.from_dict` raise `KeyError` (the `data[...]` accesses run
in source order and each can only fail with `KeyError`). -/
lemma from_dict_missing_required (jl : String → Option PyVal)
    (d : List (String × PyVal)) (k : String)
    (hk : k ∈ ["deviceId", "groupId", "sku", "device", "versionHard",
               "versionSoft", "deviceName", "deviceExt"])
    (hmiss : List.lookup k d = none) :
    GoveeDevice.from_dict jl (.pdict d) = .error .keyError := by
  simp only [List.mem_cons, List.not_mem_nil, or_false] at hk
  rcases hk with rfl | rfl | rfl | rfl | rfl | rfl | rfl | rfl <;>
    simp only [GoveeDevice.from_dict] <;>
    rw [pyGetItem_eq_error hmiss] <;>
    repeat' (first
      | rfl
      | (split <;> rename_i x h <;> first | rw [pyGetItem_error_elim h] | skip))

/-- C1: for a parsed device whose decoded `lastDeviceData` is present,
each of the four hundredths-encoded readings is normalized to
`value / 100`; an absent (`None`) reading stays absent, never 0.0.
`tem = 2160` yields exactly 21.6. -/
theorem c1_hundredths_conversion (jl : String → Option PyVal)
    (ext : DeviceExt) (ds? : Option DeviceSettings) (l : LastDeviceData)
    (hds : DeviceExt.get_parsed_device_settings jl ext = .ok ds?)
    (hld : DeviceExt.get_parsed_last_device_data jl ext = .ok (some l)) :
    postInitData jl ext = .ok (buildDeviceData ds? (some l))
    ∧ (buildDeviceData ds? (some l)).temperature
        = Option.map (fun n : ℤ => (n : ℚ) / 100) l.tem
    ∧ (buildDeviceData ds? (some l)).humidity
        = Option.map (fun n : ℤ => (n : ℚ) / 100) l.hum
    ∧ (buildDeviceData ds? (some l)).avg_day_temperature
        = Option.map (fun n : ℤ => (n : ℚ) / 100) l.avg_day_tem
    ∧ (buildDeviceData ds? (some l)).avg_day_humidity
        = Option.map (fun n : ℤ => (n : ℚ) / 100) l.avg_day_hum
    ∧ (l.tem = some 2160 →
        (buildDeviceData ds? (some l)).temperature = some (216 / 10))
    ∧ (l.tem = none → (buildDeviceData ds? (some l)).temperature = none) := by
  refine ⟨?_, ?_, ?_, ?_, ?_, ?_, ?_⟩
  · rw [postInitData, hds, hld]
  · cases h : l.tem <;>
      simp [buildDeviceData, GoveeDevice.convert_temperature, h]
  · cases h : l.hum <;>
      simp [buildDeviceData, GoveeDevice.convert_humidity, h]
  · cases h : l.avg_day_tem <;>
      simp [buildDeviceData, GoveeDevice.convert_temperature, h]
  · cases h : l.avg_day_hum <;>
      simp [buildDeviceData, GoveeDevice.convert_humidity, h]
  · intro h
    simp only [buildDeviceData, GoveeDevice.convert_temperature, h]
    norm_num
  · intro h
    simp [buildDeviceData, GoveeDevice.convert_temperature, h]

/-- Witness for C1 at `tem = 2160`. -/
theorem c1_hundredths_conversion_witness :
    DeviceExt.get_parsed_device_settings c1w_jl c1w_ext = .ok none
    ∧ DeviceExt.get_parsed_last_device_data c1w_jl c1w_ext = .ok (some c1w_l)
    ∧ (postInitData c1w_jl c1w_ext = .ok (buildDeviceData none (some c1w_l))
    ∧ (buildDeviceData none (some c1w_l)).temperature
        = Option.map (fun n : ℤ => (n : ℚ) / 100) c1w_l.tem
    ∧ (buildDeviceData none (some c1w_l)).humidity
        = Option.map (fun n : ℤ => (n : ℚ) / 100) c1w_l.hum
    ∧ (buildDeviceData none (some c1w_l)).avg_day_temperature
        = Option.map (fun n : ℤ => (n : ℚ) / 100) c1w_l.avg_day_tem
    ∧ (buildDeviceData none (some c1w_l)).avg_day_humidity
        = Option.map (fun n : ℤ => (n : ℚ) / 100) c1w_l.avg_day_hum
    ∧ (c1w_l.tem = some 2160 →
        (buildDeviceData none (some c1w_l)).temperature = some (216 / 10))
    ∧ (c1w_l.tem = none →
        (buildDeviceData none (some c1w_l)).temperature = none)) :=
  ⟨rfl, rfl, c1_hundredths_conversion c1w_jl c1w_ext none c1w_l rfl rfl⟩

/-- C10: the sensor-value validator is total and never fails the
device: a dict always yields a `LastDeviceData`; `None` stays `None`;
a value whose `int()` conversion raises (a non-numeric string, a list)
becomes `None`; a float is coerced via `int()`, truncating toward zero
(floor for nonnegative, ceiling for negative), so 12.7 becomes 12 and
-12.7 becomes -12 rather than being rejected or rounded. -/
theorem c10_validator_total :
    (∀ d : List (String × PyVal),
      LastDeviceData.from_dict (.pdict d) = .ok (LastDeviceData.of d))
    ∧ LastDeviceData.validate_sensor_value .pnone = none
    ∧ LastDeviceData.validate_sensor_value (.pstr "abc") = none
    ∧ LastDeviceData.validate_sensor_value (.plist []) = none
    ∧ (∀ s : String, pyIntOfStr s = none →
        LastDeviceData.validate_sensor_value (.pstr s) = none)
    ∧ (∀ q : ℚ,
        LastDeviceData.validate_sensor_value (.pfloat q) = some (pyTrunc q))
    ∧ (∀ q : ℚ, 0 ≤ q → pyTrunc q = ⌊q⌋)
    ∧ (∀ q : ℚ, q < 0 → pyTrunc q = ⌈q⌉)
    ∧ LastDeviceData.validate_sensor_value (.pfloat (127 / 10)) = some 12
    ∧ LastDeviceData.validate_sensor_value (.pfloat (-(127 / 10))) = some (-12)
    ∧ LastDeviceData.validate_sensor_value (.pstr "73") = some 73 := by
  have htr : pyTrunc ((127 : ℚ) / 10) = 12 := by
    rw [pyTrunc, if_pos (by norm_num)]
    norm_num
  have htr2 : pyTrunc (-((127 : ℚ) / 10)) = -12 := by
    rw [pyTrunc, if_neg (by norm_num), Int.ceil_neg]
    norm_num
  refine ⟨fun d => rfl, rfl, rfl, rfl, fun s h => ?_, fun q => rfl,
    fun q h => ?_, fun q h => ?_, ?_, ?_, rfl⟩
  · simp [LastDeviceData.validate_sensor_value, pyInt, h]
  · rw [pyTrunc, if_pos h]
  · rw [pyTrunc, if_neg (not_le.mpr h)]
  · simp [LastDeviceData.validate_sensor_value, pyInt, htr]
  · simp [LastDeviceData.validate_sensor_value, pyInt, htr2]

/-- Witness for C10, discharging the conditional parts at concrete
inputs. -/
theorem c10_validator_total_witness :
    ((0 : ℚ) ≤ 1 / 2 ∧ pyTrunc (1 / 2) = ⌊(1 : ℚ) / 2⌋)
    ∧ (-(1 : ℚ) / 2 < 0 ∧ pyTrunc (-(1 : ℚ) / 2) = ⌈-(1 : ℚ) / 2⌉)
    ∧ (pyIntOfStr "x1" = none
        ∧ LastDeviceData.validate_sensor_value (.pstr "x1") = none) :=
  ⟨⟨by norm_num,
    c10_validator_total.2.2.2.2.2.2.1 (1 / 2) (by norm_num)⟩,
   ⟨by norm_num,
    c10_validator_total.2.2.2.2.2.2.2.1 (-(1 : ℚ) / 2) (by norm_num)⟩,
   ⟨rfl, c10_validator_total.2.2.2.2.1 "x1" rfl⟩⟩

/-- C4: when `deviceSettings` is absent (or empty) or fails to
JSON-decode while `lastDeviceData` decodes to a dict, the device is
built with the settings side `None`: every settings-derived field is
absent and every telemetry-derived field comes from the decoded
telemetry — the two sub-document parses fail independently. -/
theorem c4_settings_failure_is_isolated (jl : String → Option PyVal)
    (ext : DeviceExt) (t : String) (d : List (String × PyVal))
    (hset : ext.device_settings = .pnone
      ∨ ∃ s, ext.device_settings = .pstr s ∧ (s = "" ∨ jl s = none))
    (htel : ext.last_device_data = .pstr t) (ht : t ≠ "")
    (hdec : jl t = some (.pdict d)) :
    postInitData jl ext = .ok (buildDeviceData none (some (LastDeviceData.of d)))
    ∧ (buildDeviceData none (some (LastDeviceData.of d))).battery = .pnone
    ∧ (buildDeviceData none (some (LastDeviceData.of d))).wifi_level = .pnone
    ∧ (buildDeviceData none (some (LastDeviceData.of d))).temperature_warning = .pnone
    ∧ (buildDeviceData none (some (LastDeviceData.of d))).humidity_warning = .pnone
    ∧ (buildDeviceData none (some (LastDeviceData.of d))).upload_rate = .pnone
    ∧ (buildDeviceData none (some (LastDeviceData.of d))).power_save_mode = .pnone
    ∧ (buildDeviceData none (some (LastDeviceData.of d))).temperature
        = Option.map (fun n : ℤ => (n : ℚ) / 100) (LastDeviceData.of d).tem
    ∧ (buildDeviceData none (some (LastDeviceData.of d))).humidity
        = Option.map (fun n : ℤ => (n : ℚ) / 100) (LastDeviceData.of d).hum
    ∧ (buildDeviceData none (some (LastDeviceData.of d))).online
        = (LastDeviceData.of d).online
    ∧ (buildDeviceData none (some (LastDeviceData.of d))).last_seen
        = (LastDeviceData.of d).last_time
    ∧ (buildDeviceData none (some (LastDeviceData.of d))).avg_day_temperature
        = Option.map (fun n : ℤ => (n : ℚ) / 100) (LastDeviceData.of d).avg_day_tem
    ∧ (buildDeviceData none (some (LastDeviceData.of d))).avg_day_humidity
        = Option.map (fun n : ℤ => (n : ℚ) / 100) (LastDeviceData.of d).avg_day_hum := by
  have hsettings : DeviceExt.get_parsed_device_settings jl ext = .ok none := by
    rcases hset with h | ⟨s, hs, hcase⟩
    · rw [DeviceExt.get_parsed_device_settings, h]
      rfl
    · rcases hcase with rfl | hjl
      · rw [DeviceExt.get_parsed_device_settings, hs]
        rfl
      · rw [DeviceExt.get_parsed_device_settings, hs]
        by_cases he : s = ""
        · rw [if_pos (by simp [pyFalsy, he])]
        · rw [if_neg (by simp [pyFalsy, he])]
          dsimp only
          rw [hjl]
  have htelemetry : DeviceExt.get_parsed_last_device_data jl ext
      = .ok (some (LastDeviceData.of d)) := by
    rw [DeviceExt.get_parsed_last_device_data, htel,
      if_neg (by simp [pyFalsy, ht])]
    dsimp only
    rw [hdec]
    rfl
  refine ⟨?_, rfl, rfl, rfl, rfl, rfl, rfl, ?_, ?_, rfl, rfl, ?_, ?_⟩
  · rw [postInitData, hsettings, htelemetry]
  · cases h : (LastDeviceData.of d).tem <;>
      simp [buildDeviceData, GoveeDevice.convert_temperature, h]
  · cases h : (LastDeviceData.of d).hum <;>
      simp [buildDeviceData, GoveeDevice.convert_humidity, h]
  · cases h : (LastDeviceData.of d).avg_day_tem <;>
      simp [buildDeviceData, GoveeDevice.convert_temperature, h]
  · cases h : (LastDeviceData.of d).avg_day_hum <;>
      simp [buildDeviceData, GoveeDevice.convert_humidity, h]

/-- Witness for C4: settings decode fails, telemetry populated. -/
theorem c4_settings_failure_is_isolated_witness :
    (c4w_ext.device_settings = .pstr "not json" ∧ c4w_jl "not json" = none)
    ∧ c4w_ext.last_device_data = .pstr "T"
    ∧ ("T" : String) ≠ ""
    ∧ c4w_jl "T" = some (.pdict [("tem", .pint 2100), ("online", .pbool true)])
    ∧ postInitData c4w_jl c4w_ext
        = .ok (buildDeviceData none
            (some (LastDeviceData.of [("tem", .pint 2100), ("online", .pbool true)])))
    ∧ (buildDeviceData none
        (some (LastDeviceData.of [("tem", .pint 2100), ("online", .pbool true)]))).battery
        = .pnone :=
  ⟨⟨rfl, rfl⟩, rfl, by decide, rfl,
   (c4_settings_failure_is_isolated c4w_jl c4w_ext "T"
      [("tem", .pint 2100), ("online", .pbool true)]
      (Or.inr ⟨"not json", rfl, Or.inr rfl⟩) rfl (by decide) rfl).1,
   (c4_settings_failure_is_isolated c4w_jl c4w_ext "T"
      [("tem", .pint 2100), ("online", .pbool true)]
      (Or.inr ⟨"not json", rfl, Or.inr rfl⟩) rfl (by decide) rfl).2.1⟩

/-- C8: boolean fields stay tri-state through the pipeline: the parse
stores exactly the raw sub-document value (`False` distinct from
`None`), `buildDeviceData` copies it (with `None` when the telemetry or
settings side is absent), binary-sensor availability is exactly
"value is not None" (so an explicit `False` is still available), and
the exposed state maps `True`/`False`/`None` to on/off/unavailable. -/
theorem c8_booleans_tristate (ds : Option DeviceSettings)
    (s : DeviceSettings) (l : LastDeviceData) (d : List (String × PyVal))
    (coordData : List (String × List (String × PyVal)))
    (mac key : String) (ddv : List (String × PyVal))
    (hm : List.lookup mac coordData = some ddv) :
    (LastDeviceData.of d).online = pyGet d "online"
    ∧ (buildDeviceData ds (some l)).online = l.online
    ∧ (buildDeviceData ds none).online = .pnone
    ∧ (buildDeviceData (some s) (some l)).temperature_warning = s.tem_warning
    ∧ (buildDeviceData none (some l)).temperature_warning = .pnone
    ∧ PyVal.pbool false ≠ PyVal.pnone
    ∧ GoveeBinarySensor.available true coordData mac key
        = !pyIsNone (pyGet ddv key)
    ∧ (pyGet ddv key = .pbool false →
        GoveeBinarySensor.available true coordData mac key = true)
    ∧ (pyGet ddv key = .pbool true →
        exposedBinaryState true coordData mac key = .on)
    ∧ (pyGet ddv key = .pbool false →
        exposedBinaryState true coordData mac key = .off)
    ∧ (pyGet ddv key = .pnone →
        exposedBinaryState true coordData mac key = .unavailable) := by
  have havail : GoveeBinarySensor.available true coordData mac key
      = !pyIsNone (pyGet ddv key) := by
    rw [GoveeBinarySensor.available]
    simp only [Bool.not_true, Bool.false_eq_true, if_false, hm]
  refine ⟨rfl, rfl, rfl, rfl, rfl, by simp, havail, ?_, ?_, ?_, ?_⟩
  · intro h
    rw [havail, h]
    rfl
  · intro h
    rw [exposedBinaryState, havail, h]
    simp [GoveeBinarySensor.is_on, hm, h, pyIsNone, pyFalsy]
  · intro h
    rw [exposedBinaryState, havail, h]
    simp [GoveeBinarySensor.is_on, hm, h, pyIsNone, pyFalsy]
  · intro h
    rw [exposedBinaryState, havail, h]
    simp [pyIsNone]

/-- Witness for C8 with `online = False`: still available, shows off. -/
theorem c8_booleans_tristate_witness :
    List.lookup "AA:BB" c8w_coord = some [("online", .pbool false)]
    ∧ GoveeBinarySensor.available true c8w_coord "AA:BB" "online"
        = !pyIsNone (pyGet [("online", .pbool false)] "online")
    ∧ (pyGet [("online", .pbool false)] "online" = .pbool false →
        exposedBinaryState true c8w_coord "AA:BB" "online" = .off) :=
  ⟨rfl,
   (c8_booleans_tristate none {} {} [] c8w_coord "AA:BB" "online"
      [("online", .pbool false)] rfl).2.2.2.2.2.2.1,
   (c8_booleans_tristate none {} {} [] c8w_coord "AA:BB" "online"
      [("online", .pbool false)] rfl).2.2.2.2.2.2.2.2.2.1⟩

/-- C9: beyond `deviceName`/`device`, every one of `deviceId`,
`groupId`, `sku`, `versionHard`, `versionSoft` and `deviceExt` is
required: a record missing any of them is skipped (`from_api_response`
yields `None`), even with `deviceName` and `device` present. -/
theorem c9_required_keys_skip (jl : String → Option PyVal)
    (d : List (String × PyVal)) (k : String)
    (hk : k = "deviceId" ∨ k = "groupId" ∨ k = "sku" ∨ k = "versionHard"
      ∨ k = "versionSoft" ∨ k = "deviceExt")
    (hmiss : List.lookup k d = none) :
    GoveeDevice.from_api_response jl (.pdict d) = .ok none := by
  have h := from_dict_missing_required jl d k
    (by rcases hk with rfl | rfl | rfl | rfl | rfl | rfl <;> simp) hmiss
  rw [GoveeDevice.from_api_response, h]

/-- Witness for C9: missing `sku` with `deviceName`/`device` present. -/
theorem c9_required_keys_skip_witness :
    List.lookup "sku" c9w_rec = none
    ∧ List.lookup "deviceName" c9w_rec = some (.pstr "Office")
    ∧ List.lookup "device" c9w_rec = some (.pstr "AA:BB")
    ∧ GoveeDevice.from_api_response (fun _ => none) (.pdict c9w_rec)
        = .ok none :=
  ⟨rfl, rfl, rfl,
   c9_required_keys_skip (fun _ => none) c9w_rec "sku"
     (Or.inr (Or.inr (Or.inl rfl))) rfl⟩

/-- C2 counterexample: a malformed entry that is not a dict raises
`TypeError` (`data["deviceId"]` on a string), which
`except (ValueError, KeyError)` does not catch, so the whole parse
fails and the good sibling is lost — even though the sibling alone
parses to one device. -/
theorem c2_counterexample :
    GoveeDevice.from_api_response (fun _ => none) (.pstr "x")
      = .error .typeError
    ∧ getDevicesBody (fun _ => none) c2_body = .error .typeError
    ∧ (getDevicesBody (fun _ => none) c2_body_good_only).map List.length
        = .ok 1 :=
  ⟨rfl, rfl, rfl⟩

/-- C2 amended: a raw record that is a dict missing `deviceName` or
`device` is excluded without raising (`from_api_response` yields
`None`, via the caught `KeyError`) and every sibling is still parsed;
but a record of non-dict shape raises an uncaught `TypeError` that
fails the whole parse. -/
theorem c2_amended_missing_identity_skipped (jl : String → Option PyVal)
    (d : List (String × PyVal)) (rest : List PyVal)
    (hmiss : List.lookup "deviceName" d = none
      ∨ List.lookup "device" d = none) :
    GoveeDevice.from_api_response jl (.pdict d) = .ok none
    ∧ parseDeviceList jl (.pdict d :: rest) = parseDeviceList jl rest := by
  have hfd : GoveeDevice.from_dict jl (.pdict d) = .error .keyError := by
    rcases hmiss with h | h
    · exact from_dict_missing_required jl d "deviceName" (by simp) h
    · exact from_dict_missing_required jl d "device" (by simp) h
  have har : GoveeDevice.from_api_response jl (.pdict d) = .ok none := by
    rw [GoveeDevice.from_api_response, hfd]
  refine ⟨har, ?_⟩
  rw [parseDeviceList, har]
  cases parseDeviceList jl rest <;> rfl

/-- Witness for the amended C2 at a record missing `deviceName`. -/
theorem c2_amended_missing_identity_skipped_witness :
    List.lookup "deviceName" c2w_rec = none
    ∧ (GoveeDevice.from_api_response (fun _ => none) (.pdict c2w_rec)
          = .ok none
      ∧ parseDeviceList (fun _ => none) (.pdict c2w_rec :: [.pdict c2_good])
          = parseDeviceList (fun _ => none) [.pdict c2_good]) :=
  ⟨rfl, c2_amended_missing_identity_skipped (fun _ => none) c2w_rec
    [.pdict c2_good] (Or.inl rfl)⟩

/-- C3 counterexample: a record whose `deviceExt` key is absent is not
parsed into an all-`None` device — `data["deviceExt"]` raises
`KeyError` and the device is skipped (`from_api_response` is `None`). -/
theorem c3_counterexample :
    List.lookup "deviceExt" c3_rec = none
    ∧ GoveeDevice.from_api_response (fun _ => none) (.pdict c3_rec)
        = .ok none :=
  ⟨rfl, rfl⟩

/-- C3 amended: `deviceExt` is required — a record missing it is
skipped; when `deviceExt` is present as an (even empty) object the
device does parse, with every settings- and telemetry-derived field
absent. -/
theorem c3_amended_empty_ext_parses (jl : String → Option PyVal)
    (d : List (String × PyVal)) (v1 v2 v3 v4 v5 v6 v7 : PyVal)
    (h1 : List.lookup "deviceId" d = some v1)
    (h2 : List.lookup "groupId" d = some v2)
    (h3 : List.lookup "sku" d = some v3)
    (h4 : List.lookup "device" d = some v4)
    (h5 : List.lookup "versionHard" d = some v5)
    (h6 : List.lookup "versionSoft" d = some v6)
    (h7 : List.lookup "deviceName" d = some v7)
    (h8 : List.lookup "deviceExt" d = some (.pdict [])) :
    GoveeDevice.from_api_response jl (.pdict d)
      = .ok (some { device_id := v1, group_id := v2, sku := v3, device := v4,
                    version_hard := v5, version_soft := v6, device_name := v7,
                    device_ext := DeviceExt.of [],
                    name := v7, mac := v4, model := v3,
                    data := buildDeviceData none none })
    ∧ (buildDeviceData none none).temperature = none
    ∧ (buildDeviceData none none).humidity = none
    ∧ (buildDeviceData none none).battery = .pnone
    ∧ (buildDeviceData none none).online = .pnone
    ∧ (buildDeviceData none none).wifi_level = .pnone
    ∧ (buildDeviceData none none).temperature_warning = .pnone
    ∧ (buildDeviceData none none).humidity_warning = .pnone
    ∧ (buildDeviceData none none).upload_rate = .pnone
    ∧ (buildDeviceData none none).power_save_mode = .pnone
    ∧ (buildDeviceData none none).last_seen = .pnone
    ∧ (buildDeviceData none none).avg_day_temperature = none
    ∧ (buildDeviceData none none).avg_day_humidity = none
    ∧ (buildDeviceData none none).raw_data = (none, none) := by
  refine ⟨?_, rfl, rfl, rfl, rfl, rfl, rfl, rfl, rfl, rfl, rfl, rfl, rfl, rfl⟩
  simp only [GoveeDevice.from_api_response, GoveeDevice.from_dict,
    pyGetItem_eq_ok h1, pyGetItem_eq_ok h2, pyGetItem_eq_ok h3,
    pyGetItem_eq_ok h4, pyGetItem_eq_ok h5, pyGetItem_eq_ok h6,
    pyGetItem_eq_ok h7, pyGetItem_eq_ok h8]
  rfl

/-- Witness for the amended C3 at a concrete record. -/
theorem c3_amended_empty_ext_parses_witness :
    List.lookup "deviceExt" c3w_rec = some (.pdict [])
    ∧ GoveeDevice.from_api_response (fun _ => none) (.pdict c3w_rec)
        = .ok (some { device_id := .pint 7, group_id := .pint 0,
                      sku := .pstr "H5075", device := .pstr "AA:BB",
                      version_hard := .pstr "1.0", version_soft := .pstr "1.0",
                      device_name := .pstr "Office",
                      device_ext := DeviceExt.of [],
                      name := .pstr "Office", mac := .pstr "AA:BB",
                      model := .pstr "H5075",
                      data := buildDeviceData none none }) :=
  ⟨rfl,
   (c3_amended_empty_ext_parses (fun _ => none) c3w_rec
     (.pint 7) (.pint 0) (.pstr "H5075") (.pstr "AA:BB") (.pstr "1.0")
     (.pstr "1.0") (.pstr "Office")
     rfl rfl rfl rfl rfl rfl rfl rfl).1⟩

/-- C5 counterexample: the literal SKU `"Unknown"` collides with the
`device_data.get("model", "Unknown")` default sentinel — it is present
and not in the lookup table, yet the function falls through to the
presence heuristics instead of returning `"Unknown Sensor"`. -/
theorem c5_counterexample :
    List.lookup "model" c5_dd = some (.pstr "Unknown")
    ∧ List.lookup "Unknown" DEVICE_MODELS = none
    ∧ getDeviceModel c5_dd = "Temperature/Humidity Sensor"
    ∧ "Temperature/Humidity Sensor" ≠ "Unknown Sensor" :=
  ⟨rfl, rfl, rfl, by decide⟩

/-- C5 amended: a SKU in the lookup table maps to its friendly name;
a present, unrecognized SKU other than the literal sentinel
`"Unknown"` maps to `"{sku} Sensor"`; the value `"Unknown"` (which is
also what an absent model key defaults to) falls through to the
sensor-presence heuristics (temp+hum, temp only, hum only, neither). -/
theorem c5_amended_model_assembly (dd : List (String × PyVal))
    (s m : String)
    (hmodel : pyGetD dd "model" (.pstr "Unknown") = .pstr s) :
    (List.lookup s DEVICE_MODELS = some m → getDeviceModel dd = m)
    ∧ (List.lookup s DEVICE_MODELS = none → s ≠ "Unknown" →
        getDeviceModel dd = s ++ " Sensor")
    ∧ (s = "Unknown" →
        ((pyIsNone (pyGet dd "temperature") = false →
          pyIsNone (pyGet dd "humidity") = false →
          getDeviceModel dd = "Temperature/Humidity Sensor")
        ∧ (pyIsNone (pyGet dd "temperature") = false →
           pyIsNone (pyGet dd "humidity") = true →
           getDeviceModel dd = "Temperature Sensor")
        ∧ (pyIsNone (pyGet dd "temperature") = true →
           pyIsNone (pyGet dd "humidity") = false →
           getDeviceModel dd = "Humidity Sensor")
        ∧ (pyIsNone (pyGet dd "temperature") = true →
           pyIsNone (pyGet dd "humidity") = true →
           getDeviceModel dd = "Sensor"))) := by
  refine ⟨?_, ?_, ?_⟩
  · intro h
    rw [getDeviceModel, hmodel]
    simp only [deviceModelLookup, h]
  · intro h hne
    rw [getDeviceModel, hmodel]
    simp only [deviceModelLookup, h]
    split
    · rename_i heq
      injection heq with heq'
      exact absurd heq' hne
    · rfl
  · rintro rfl
    refine ⟨?_, ?_, ?_, ?_⟩ <;> intro ht hh <;>
      rw [getDeviceModel, hmodel] <;>
      simp only [deviceModelLookup, ht, hh, Bool.not_false, Bool.not_true,
        Bool.and_self, Bool.and_false, Bool.false_and, if_true, if_false] <;>
      rfl

/-- Witness for the amended C5 covering three SKU shapes. -/
theorem c5_amended_model_assembly_witness :
    (pyGetD [("model", .pstr "H5075")] "model" (.pstr "Unknown")
        = .pstr "H5075"
      ∧ List.lookup "H5075" DEVICE_MODELS = some "Bluetooth Thermo-Hygrometer"
      ∧ getDeviceModel [("model", .pstr "H5075")]
          = "Bluetooth Thermo-Hygrometer")
    ∧ (List.lookup "H9999" DEVICE_MODELS = none
      ∧ getDeviceModel [("model", .pstr "H9999")] = "H9999" ++ " Sensor")
    ∧ (pyGetD ([] : List (String × PyVal)) "model" (.pstr "Unknown")
        = .pstr "Unknown"
      ∧ getDeviceModel [] = "Sensor") :=
  ⟨⟨rfl, rfl,
    (c5_amended_model_assembly [("model", .pstr "H5075")] "H5075"
      "Bluetooth Thermo-Hygrometer" rfl).1 rfl⟩,
   ⟨rfl,
    (c5_amended_model_assembly [("model", .pstr "H9999")] "H9999" ""
      rfl).2.1 rfl (by decide)⟩,
   ⟨rfl,
    ((c5_amended_model_assembly [] "Unknown" "" rfl).2.2 rfl).2.2.2
      rfl rfl⟩⟩

/-- C6: the claim that a 401 surfaces as the authentication-failure
type is contradicted by the code (a code bug): the
`raise GoveeAuthenticationError` sits inside the `try` block whose own
final `except Exception` clause catches it (it is neither an
`httpx.HTTPStatusError` nor an `httpx.RequestError`) and re-raises a
plain `GoveeClientError`, so the authentication type can never reach
the caller; network errors and timeouts do map to the connection type,
and other non-2xx statuses to the generic type, as claimed. -/
theorem c6_auth_error_unreachable :
    GoveeClient.get_devices (fun _ => none) (.response 401 (some (.pdict [])))
      = .error .clientError
    ∧ (∀ (jl : String → Option PyVal) (t : Transport),
        GoveeClient.get_devices jl t ≠ .error .authenticationError)
    ∧ GoveeClient.get_devices (fun _ => none) .timeout
        = .error .connectionError
    ∧ GoveeClient.get_devices (fun _ => none) .requestError
        = .error .connectionError
    ∧ GoveeClient.get_devices (fun _ => none) (.response 500 (some (.pdict [])))
        = .error .clientError := by
  refine ⟨rfl, ?_, rfl, rfl, rfl⟩
  intro jl t h
  cases t with
  | timeout => exact absurd h (by simp [GoveeClient.get_devices])
  | requestError => exact absurd h (by simp [GoveeClient.get_devices])
  | response status body =>
    simp only [GoveeClient.get_devices] at h
    split_ifs at h with h1 h2
    · simp at h
    · simp at h
    · cases body with
      | none => simp at h
      | some b =>
        dsimp only at h
        cases hb : getDevicesBody jl b <;> rw [hb] at h <;> simp at h

/-- C7 counterexample: the stored sub-document dumps under its
normalized snake_case attribute names, but the sub-document parser
reads the camelCase vendor keys — re-parsing the dump of a telemetry
record with `lastTime = 100` loses the field (`last_time` comes back
`None`), so the round-trip is not the identity. -/
theorem c7_counterexample :
    (GoveeDevice.from_api_response c7_jl (.pdict c7_rec)).map
        (Option.map (fun dv => dv.data.raw_data.2))
      = .ok (some (some c7_ldd))
    ∧ c7_ldd.last_time = .pint 100
    ∧ LastDeviceData.from_dict c7_ldd.dump = .ok (stripLD c7_ldd)
    ∧ (stripLD c7_ldd).last_time = .pnone
    ∧ stripLD c7_ldd ≠ c7_ldd := by
  refine ⟨rfl, rfl, rfl, rfl, ?_⟩
  intro h
  exact PyVal.noConfusion (congrArg LastDeviceData.last_time h)

/-- C7 amended: re-parsing the dumped sub-documents preserves exactly
the fields whose normalized name equals the vendor key (`online`,
`tem`, `hum` for telemetry; `battery`, `sku`, `device` for settings)
and nulls every alias-renamed field; the dump-reparse composition is
idempotent, so the parse round-trips from the second application on. -/
theorem c7_roundtrip_amended (l : LastDeviceData) (s : DeviceSettings) :
    LastDeviceData.from_dict l.dump = .ok (stripLD l)
    ∧ DeviceSettings.from_dict s.dump = .ok (stripDS s)
    ∧ (stripLD l).online = l.online
    ∧ (stripLD l).tem = l.tem
    ∧ (stripLD l).hum = l.hum
    ∧ (stripLD l).last_time = .pnone
    ∧ (stripDS s).battery = s.battery
    ∧ (stripDS s).sku = s.sku
    ∧ (stripDS s).device = s.device
    ∧ (stripDS s).tem_warning = .pnone
    ∧ stripLD (stripLD l) = stripLD l
    ∧ stripDS (stripDS s) = stripDS s := by
  obtain ⟨o, t, hm, lt, adt, adh⟩ := l
  refine ⟨?_, rfl, rfl, rfl, rfl, rfl, rfl, rfl, rfl, rfl, rfl, rfl⟩
  cases t <;> cases hm <;> cases adt <;> cases adh <;> rfl
